import Mathlib

/-
Verification of the Merite wallet/loan/investment core.

The definitions below are a shallow embedding of the balance-mutating
endpoints of the repository (src/app/routers/wallet.py, loans.py,
invests.py, sell_airtime.py and src/app/utils.py).  Monetary amounts and
timestamps are modelled as rationals (the Python code uses floats; the
specification's arithmetic is exact, and every concrete scenario in it is
exactly representable).  Database sessions are modelled by explicit state
records; an endpoint that raises an HTTPException before `db.commit()`
rolls the session back, so each embedded endpoint returns the original
state together with `Except.error` in that case.  Random references,
wall-clock defaults and notification side effects (best-effort, swallowed)
are omitted: no claim concerns them.
-/

set_option maxHeartbeats 1000000

namespace Merite

/-- Embedding of models.TransactionType (src/app/models.py lines 12-21). -/
inductive TransactionType where
  | deposit
  | withdrawal
  | transferIn
  | transferOut
  | paymentReceived
  | loanDisbursement
  | loanRepayment
  | investDeposit
  | investCashout
deriving DecidableEq, Repr, Inhabited, BEq

/-- Embedding of models.TransactionStatus (src/app/models.py lines 23-27). -/
inductive TransactionStatus where
  | pending
  | completed
  | failed
  | cancelled
deriving DecidableEq, Repr, Inhabited, BEq

/-- Embedding of models.LoanStatus (src/app/models.py lines 45-51). -/
inductive LoanStatus where
  | pending
  | approved
  | active
  | paid
  | rejected
  | defaulted
deriving DecidableEq, Repr, Inhabited, BEq

/-- Embedding of models.InvestPeriod (src/app/models.py lines 262-267). -/
inductive InvestPeriod where
  | daily
  | weekly
  | monthly
  | yearly
  | test5min
deriving DecidableEq, Repr, Inhabited, BEq

/-- String value of an InvestPeriod member, as in the Python enum. -/
def InvestPeriod.value : InvestPeriod → String
  | .daily => "daily"
  | .weekly => "weekly"
  | .monthly => "monthly"
  | .yearly => "yearly"
  | .test5min => "test_5_min"

/-- Embedding of models.Transaction (src/app/models.py lines 183-199), the
ledger-entry table.  The random unique `reference`, the timestamps and the
`payment_link_id` are omitted: no claim mentions them. -/
structure Transaction where
  user_id : Nat
  transaction_type : TransactionType
  amount : ℚ
  balance_before : ℚ
  balance_after : ℚ
  status : TransactionStatus
  description : String
  recipient_id : Option Nat := none
  loan_id : Option Nat := none
deriving DecidableEq, Repr, Inhabited

/-- Direction of a ledger-entry kind: true for kinds recorded on a balance
credit, false for kinds recorded on a balance debit.  `paymentReceived` is
a credit in its proper use (src/app/routers/payments.py line 166);
sell_airtime reuses that kind for its principal deduction, noting in a
comment that a generic debit type was meant. -/
def TransactionType.is_credit : TransactionType → Bool
  | .deposit => true
  | .transferIn => true
  | .paymentReceived => true
  | .loanDisbursement => true
  | .investCashout => true
  | .withdrawal => false
  | .transferOut => false
  | .loanRepayment => false
  | .investDeposit => false

/-- Signed amount of a ledger entry: positive for credit kinds, negative
for debit kinds. -/
def signed_amount (t : Transaction) : ℚ :=
  if t.transaction_type.is_credit then t.amount else -t.amount

/-- Statement that a ledger entry satisfies the balance equation of the
specification: balance_after = balance_before + signed amount. -/
def entry_balanced (t : Transaction) : Prop :=
  t.balance_after = t.balance_before + signed_amount t

instance (t : Transaction) : Decidable (entry_balanced t) := by
  unfold entry_balanced; infer_instance

/-- Ledger entry at a given index of a ledger list (default entry when out
of range); used to name the entries appended by an operation. -/
def entry_at (l : List Transaction) (n : Nat) : Transaction :=
  (l.drop n).headD default

/-- Subset of models.User (src/app/models.py) used by the wallet, loan and
investment engines. -/
structure User where
  id : Nat
  phone_number : String
  wallet_balance : ℚ
  loan_limit : ℚ
  loan_percent : ℚ
deriving DecidableEq, Repr, Inhabited

/-- Typed error raised by an endpoint, carrying the HTTP status code and
detail string of the corresponding HTTPException. -/
inductive ApiError where
  | http (status_code : Nat) (detail : String)
deriving DecidableEq, Repr

/-- Embedding of utils.calculate_loan_limit (src/app/utils.py lines
139-156).  Its argument is the value of the volume query: the sum of the
amounts of the user's completed transactions of every kind. -/
def calculate_loan_limit (total_volume : ℚ) : ℚ :=
  if 100000 ≤ total_volume then 1000000
  else if 50000 ≤ total_volume then 500000
  else if 10000 ≤ total_volume then 100000
  else if 1000 ≤ total_volume then 60000
  else 50000

/-- Volume query of utils.calculate_loan_limit: sum of the amounts of the
given user's completed transactions. -/
def completed_volume (uid : Nat) (ts : List Transaction) : ℚ :=
  ((ts.filter fun t => t.user_id == uid && t.status == TransactionStatus.completed).map
    fun t => t.amount).sum

/-- Session state touched by the single-account wallet endpoints: the
authenticated user's row and the ledger. -/
structure WalletState where
  user : User
  transactions : List Transaction
deriving Repr

/-- Embedding of deposit_funds (src/app/routers/wallet.py lines 25-74).
The schema requires amount > 0; the handler itself has no failure branch.
After flushing the new completed entry it overwrites the user's stored
loan limit with utils.calculate_loan_limit, whose volume query sees the
new entry. -/
def deposit_funds (s : WalletState) (amount : ℚ) : WalletState × Transaction :=
  let balance_before := s.user.wallet_balance
  let balance_after := balance_before + amount
  let txn : Transaction :=
    { user_id := s.user.id
      transaction_type := TransactionType.deposit
      amount := amount
      balance_before := balance_before
      balance_after := balance_after
      status := TransactionStatus.completed
      description := "Wallet deposit (simulated)" }
  let ts := s.transactions ++ [txn]
  let user := { s.user with wallet_balance := balance_after }
  let user := { user with loan_limit := calculate_loan_limit (completed_volume user.id ts) }
  ({ user := user, transactions := ts }, txn)

/-- Embedding of withdraw_money (src/app/routers/wallet.py lines 75-136).
A 3% fee and the net payout are computed but only reported in the entry's
description; the full requested amount is deducted.  On insufficient
balance the handler raises and rolls back, leaving the state unchanged. -/
def withdraw_money (s : WalletState) (amount : ℚ) :
    WalletState × Except ApiError Transaction :=
  if s.user.wallet_balance < amount then
    (s, Except.error (ApiError.http 400 "Insufficient wallet balance"))
  else
    let fee := amount * (3 / 100)
    let total_deduction := amount
    let net_withdrawal := amount - fee
    let balance_before := s.user.wallet_balance
    let balance_after := balance_before - total_deduction
    let txn : Transaction :=
      { user_id := s.user.id
        transaction_type := TransactionType.withdrawal
        amount := total_deduction
        balance_before := balance_before
        balance_after := balance_after
        status := TransactionStatus.completed
        description := "Withdrawal: " ++ toString total_deduction ++ " | Fee: "
          ++ toString fee ++ " | Net: " ++ toString net_withdrawal }
    ({ user := { s.user with wallet_balance := balance_after },
       transactions := s.transactions ++ [txn] },
     Except.ok txn)

/-- Session state touched by send_money: the authenticated sender's row,
the result of the recipient lookup by phone number, and the ledger. -/
structure TransferState where
  sender : User
  recipient : Option User
  transactions : List Transaction
deriving Repr

/-- Embedding of send_money (src/app/routers/wallet.py lines 138-244).
Every raise happens before any mutation and triggers db.rollback, so each
error case returns the original state: the transfer is all-or-nothing.  On
success both balances move, both entries are appended in one commit, and
both stored loan limits are overwritten with utils.calculate_loan_limit
(the volume queries see the two new entries). -/
def send_money (s : TransferState) (amount : ℚ) (description : Option String) :
    TransferState × Except ApiError (Transaction × Transaction) :=
  if s.sender.wallet_balance < amount then
    (s, Except.error (ApiError.http 400 "Insufficient wallet balance"))
  else
    match s.recipient with
    | none => (s, Except.error (ApiError.http 404 "Recipient not found"))
    | some recipient =>
      if recipient.id = s.sender.id then
        (s, Except.error (ApiError.http 400 "Cannot send money to yourself"))
      else if s.sender.wallet_balance < amount then
        (s, Except.error (ApiError.http 400 "Insufficient wallet balance"))
      else
        let sender_balance_before := s.sender.wallet_balance
        let sender_balance_after := sender_balance_before - amount
        let sender_transaction : Transaction :=
          { user_id := s.sender.id
            transaction_type := TransactionType.transferOut
            amount := amount
            balance_before := sender_balance_before
            balance_after := sender_balance_after
            status := TransactionStatus.completed
            description := description.getD ("Transfer to " ++ recipient.phone_number)
            recipient_id := some recipient.id }
        let recipient_balance_before := recipient.wallet_balance
        let recipient_balance_after := recipient_balance_before + amount
        let recipient_transaction : Transaction :=
          { user_id := recipient.id
            transaction_type := TransactionType.transferIn
            amount := amount
            balance_before := recipient_balance_before
            balance_after := recipient_balance_after
            status := TransactionStatus.completed
            description := description.getD ("Transfer from " ++ s.sender.phone_number)
            recipient_id := some s.sender.id }
        let ts := s.transactions ++ [sender_transaction, recipient_transaction]
        let sender := { s.sender with wallet_balance := sender_balance_after }
        let recipient := { recipient with wallet_balance := recipient_balance_after }
        let sender :=
          { sender with loan_limit := calculate_loan_limit (completed_volume sender.id ts) }
        let recipient :=
          { recipient with loan_limit := calculate_loan_limit (completed_volume recipient.id ts) }
        ({ sender := sender, recipient := some recipient, transactions := ts },
         Except.ok (sender_transaction, recipient_transaction))

/-- Embedding of models.Loan (src/app/models.py lines 207-222).
Timestamps are rationals (seconds); created_at and updated_at are omitted. -/
structure Loan where
  id : Nat
  user_id : Nat
  principal_amount : ℚ
  interest_rate : ℚ
  interest_amount : ℚ
  total_amount : ℚ
  amount_paid : ℚ := 0
  status : LoanStatus := LoanStatus.pending
  due_date : Option ℚ := none
  approved_at : Option ℚ := none
  paid_at : Option ℚ := none
deriving DecidableEq, Repr, Inhabited

/-- Constant APPLICATION_FEE_PERCENT of src/app/routers/loans.py line 17. -/
def APPLICATION_FEE_PERCENT : ℚ := 5 / 100

/-- Embedding of recalculate_loan_limit (src/app/routers/loans.py lines
20-71).  Its first three arguments are the results of the three volume
queries (completed airtime sales, investment principals, completed
deposits); the fourth is the user's stored limit.  It returns the stored
limit after the call (overwritten only when it drifts from the recomputed
limit by more than 1) and the recomputed limit that the function returns.
The source function constructs no Transaction: it never writes to the
ledger. -/
def recalculate_loan_limit (airtime_sales_vol invest_vol daily_deposits : ℚ)
    (loan_limit : ℚ) : ℚ × ℚ :=
  let base_limit : ℚ := 50
  let total_credit_volume := airtime_sales_vol + invest_vol + daily_deposits
  let dynamic_increase := total_credit_volume * (5 / 100)
  let new_limit := base_limit + dynamic_increase
  if 1 < |loan_limit - new_limit| then (new_limit, new_limit) else (loan_limit, new_limit)

/-- Embedding of request_loan (src/app/routers/loans.py lines 107-209).
The three volume arguments feed recalculate_loan_limit, whose updated
stored limit is the one the eligibility check reads; active_loans is the
result of the query for loans in active, pending, approved or defaulted
state.  30 days (the due-date offset) is 2592000 seconds. -/
def request_loan (user : User) (active_loans : List Loan)
    (airtime_sales_vol invest_vol daily_deposits : ℚ)
    (amount : ℚ) (new_id : Nat) (now : ℚ) : Except ApiError Loan :=
  let limit :=
    (recalculate_loan_limit airtime_sales_vol invest_vol daily_deposits user.loan_limit).1
  if active_loans.any (fun l => l.status == LoanStatus.defaulted) then
    Except.error (ApiError.http 400 "Cannot request loan while having defaulted loans.")
  else
    let total_outstanding := (active_loans.map fun l => l.total_amount - l.amount_paid).sum
    let available_limit := max 0 (limit - total_outstanding)
    if available_limit < amount then
      Except.error (ApiError.http 400 "Amount exceeds available loan limit.")
    else if amount < 50 then
      Except.error (ApiError.http 400 "Minimum loan amount is 50")
    else
      let interest_amount := amount * user.loan_percent / 100
      Except.ok
        { id := new_id
          user_id := user.id
          principal_amount := amount
          interest_rate := user.loan_percent
          interest_amount := interest_amount
          total_amount := amount
          amount_paid := 0
          status := LoanStatus.pending
          due_date := some (now + 2592000) }

/-- Session state touched by approve_loan: the loan row, the borrower's
row and the ledger. -/
structure LoanApproveState where
  loan : Loan
  borrower : User
  transactions : List Transaction
deriving Repr

/-- Embedding of approve_loan (src/app/routers/loans.py lines 326-389).
Both raises happen before any mutation, so each error case returns the
original state (loan still pending, no balance change, no ledger entry).
On success the borrower's balance is credited first and the entry's
balance_before is then written as the mutated balance minus the
disbursement, exactly as in the source. -/
def approve_loan (s : LoanApproveState) (now : ℚ) :
    LoanApproveState × Except ApiError Loan :=
  if s.loan.status ≠ LoanStatus.pending then
    (s, Except.error (ApiError.http 400 "Loan processing is already completed or not pending"))
  else
    let principal := s.loan.principal_amount
    let fee := principal * APPLICATION_FEE_PERCENT
    let interest := s.loan.interest_amount
    let disburse_amount := principal - fee - interest
    if disburse_amount ≤ 0 then
      (s, Except.error
        (ApiError.http 400 "Calculated disbursement is zero or negative. Check rates."))
    else
      let new_balance := s.borrower.wallet_balance + disburse_amount
      let loan := { s.loan with status := LoanStatus.approved, approved_at := some now }
      let txn : Transaction :=
        { user_id := s.borrower.id
          transaction_type := TransactionType.loanDisbursement
          amount := disburse_amount
          balance_before := new_balance - disburse_amount
          balance_after := new_balance
          status := TransactionStatus.completed
          description := "Loan Disbursement (Princ: " ++ toString principal ++ ", Fee: "
            ++ toString fee ++ ", Interest: " ++ toString interest ++ ")"
          loan_id := some s.loan.id }
      ({ loan := loan
         borrower := { s.borrower with wallet_balance := new_balance }
         transactions := s.transactions ++ [txn] },
       Except.ok loan)

/-- Session state touched by repay_loan: the payer's row, the loan row and
the ledger. -/
structure LoanRepayState where
  user : User
  loan : Loan
  transactions : List Transaction
deriving Repr

/-- Embedding of repay_loan (src/app/routers/loans.py lines 212-273).
Every raise happens before any mutation and triggers db.rollback, so each
error case returns the original state.  The payment is the requested
amount capped at the remaining debt; full settlement transitions the loan
to paid and stamps paid_at. -/
def repay_loan (s : LoanRepayState) (request_amount : ℚ) (now : ℚ) :
    LoanRepayState × Except ApiError Loan :=
  if ¬ (s.loan.status = LoanStatus.active ∨ s.loan.status = LoanStatus.approved ∨
        s.loan.status = LoanStatus.defaulted) then
    (s, Except.error (ApiError.http 400 "This loan cannot be repaid"))
  else
    let remaining := s.loan.total_amount - s.loan.amount_paid
    let payment_amount := min request_amount remaining
    if s.user.wallet_balance < payment_amount then
      (s, Except.error (ApiError.http 400 "Insufficient wallet balance"))
    else
      let balance_before := s.user.wallet_balance
      let balance_after := balance_before - payment_amount
      let txn : Transaction :=
        { user_id := s.user.id
          transaction_type := TransactionType.loanRepayment
          amount := payment_amount
          balance_before := balance_before
          balance_after := balance_after
          status := TransactionStatus.completed
          description := "Loan repayment - Loan #" ++ toString s.loan.id
          loan_id := some s.loan.id }
      let amount_paid := s.loan.amount_paid + payment_amount
      let loan :=
        if amount_paid ≥ s.loan.total_amount then
          { s.loan with amount_paid := amount_paid, status := LoanStatus.paid,
                        paid_at := some now }
        else
          { s.loan with amount_paid := amount_paid }
      ({ user := { s.user with wallet_balance := balance_after }
         loan := loan
         transactions := s.transactions ++ [txn] },
       Except.ok loan)

/-- Embedding of models.UserInvest (src/app/models.py lines 269-283).
Timestamps are rationals (seconds); last_accrual_update is optional, the
accrual function falling back to created_at when it is unset. -/
structure UserInvest where
  id : Nat
  user_id : Nat
  amount : ℚ
  interest_rate : ℚ
  period : InvestPeriod
  accumulated_interest : ℚ := 0
  last_accrual_update : Option ℚ := none
  created_at : ℚ
  is_active : Bool := true
deriving DecidableEq, Repr, Inhabited

/-- Table INTEREST_RATES of src/app/routers/invests.py lines 18-24: rate
per period for each plan. -/
def INTEREST_RATES : InvestPeriod → ℚ
  | .daily => 3 / 100
  | .weekly => 4 / 100
  | .monthly => 5 / 100
  | .yearly => 10 / 100
  | .test5min => 3 / 100

/-- Table PERIOD_DURATIONS of src/app/routers/invests.py lines 26-32,
given as total seconds of each timedelta: 1 day, 1 week, 30 days, 365
days, 5 minutes. -/
def PERIOD_DURATIONS : InvestPeriod → ℚ
  | .daily => 86400
  | .weekly => 604800
  | .monthly => 2592000
  | .yearly => 31536000
  | .test5min => 300

/-- Embedding of update_investment_interest (src/app/routers/invests.py
lines 34-64): linear, non-compounding accrual of
principal * rate * (elapsed / period) since the last accrual (or creation
when no accrual has been recorded), stamping the accrual time. -/
def update_investment_interest (inv : UserInvest) (now : ℚ) : UserInvest :=
  if inv.is_active then
    let last_update := inv.last_accrual_update.getD inv.created_at
    let duration_seconds := now - last_update
    let period_seconds := PERIOD_DURATIONS inv.period
    if period_seconds = 0 then inv
    else
      { inv with
        accumulated_interest := inv.accumulated_interest +
          inv.amount * inv.interest_rate * (duration_seconds / period_seconds)
        last_accrual_update := some now }
  else inv

/-- Session state touched by the investment endpoints: the authenticated
user's row, the ledger and the user_invests table. -/
structure InvestState where
  user : User
  transactions : List Transaction
  invests : List UserInvest
deriving Repr

/-- Embedding of create_investment (src/app/routers/invests.py lines
66-108).  The period-membership check of the source always passes (every
InvestPeriod has a rate), so the only failure is insufficient balance,
raised before any mutation.  The entry's balance_before is written as the
mutated balance plus the amount, exactly as in the source. -/
def create_investment (s : InvestState) (amount : ℚ) (period : InvestPeriod)
    (new_id : Nat) (now : ℚ) : InvestState × Except ApiError UserInvest :=
  if s.user.wallet_balance < amount then
    (s, Except.error (ApiError.http 400 "Insufficient wallet balance"))
  else
    let new_balance := s.user.wallet_balance - amount
    let txn : Transaction :=
      { user_id := s.user.id
        transaction_type := TransactionType.investDeposit
        amount := amount
        balance_before := new_balance + amount
        balance_after := new_balance
        status := TransactionStatus.completed
        description := "Investment in " ++ period.value ++ " plan" }
    let investment : UserInvest :=
      { id := new_id
        user_id := s.user.id
        amount := amount
        interest_rate := INTEREST_RATES period
        period := period
        accumulated_interest := 0
        last_accrual_update := none
        created_at := now
        is_active := true }
    ({ user := { s.user with wallet_balance := new_balance }
       transactions := s.transactions ++ [txn]
       invests := s.invests ++ [investment] },
     Except.ok investment)

/-- Embedding of cashout_investment (src/app/routers/invests.py lines
182-228): final accrual, payout of principal plus accumulated interest as
one completed investCashout entry, then the investment is irreversibly
deactivated.  The entry's balance_before is written as the mutated
balance minus the payout, exactly as in the source. -/
def cashout_investment (s : InvestState) (invest_id : Nat) (now : ℚ) :
    InvestState × Except ApiError UserInvest :=
  match s.invests.find? (fun i => i.id == invest_id && i.user_id == s.user.id && i.is_active) with
  | none => (s, Except.error (ApiError.http 404 "Investment not found or already cashed out"))
  | some investment =>
    let investment := update_investment_interest investment now
    let total_payout := investment.amount + investment.accumulated_interest
    let new_balance := s.user.wallet_balance + total_payout
    let txn : Transaction :=
      { user_id := s.user.id
        transaction_type := TransactionType.investCashout
        amount := total_payout
        balance_before := new_balance - total_payout
        balance_after := new_balance
        status := TransactionStatus.completed
        description := "Cashout Investment #" ++ toString investment.id }
    let investment := { investment with is_active := false }
    ({ user := { s.user with wallet_balance := new_balance }
       transactions := s.transactions ++ [txn]
       invests := s.invests.map fun i => if i.id == invest_id then investment else i },
     Except.ok investment)

/-- Embedding of models.AirtimeSale (src/app/models.py). -/
structure AirtimeSale where
  user_id : Nat
  recipient_phone : String
  amount : ℚ
  commission : ℚ
  status : TransactionStatus
deriving DecidableEq, Repr, Inhabited

/-- Response of the airtime gateway (send_airtime_sdk): number of
recipients reached and an error message. -/
structure GatewayResp where
  numSent : Nat
  errorMessage : String
deriving DecidableEq, Repr, Inhabited

/-- Constant COMMISSION_RATE of src/app/routers/sell_airtime.py line 16. -/
def COMMISSION_RATE : ℚ := 2 / 100

/-- Session state touched by sell_airtime: the seller's row, the ledger
and the airtime_sales table. -/
structure SellState where
  user : User
  transactions : List Transaction
  airtime_sales : List AirtimeSale
deriving Repr

/-- Embedding of sell_airtime (src/app/routers/sell_airtime.py lines
18-127).  The principal-deduction entry is constructed with pending
status; when the gateway reports success it is set to completed and a
second, completed commission entry is added, all committed together.  When
the gateway reports failure (numSent = 0) the source sets the deduction
entry's status to failed, appends the gateway error to its description,
adds the amount straight back to the wallet with no further ledger entry,
records a failed AirtimeSale row, commits this state, and only then raises
(the rollback in the handler's except clause runs after the commit and
undoes nothing). -/
def sell_airtime (s : SellState) (amount : ℚ) (recipient_phone : String)
    (resp : GatewayResp) : SellState × Except ApiError AirtimeSale :=
  if s.user.wallet_balance < amount then
    (s, Except.error (ApiError.http 400 "Insufficient wallet balance to sell this amount"))
  else
    let balance_before_deduct := s.user.wallet_balance
    let balance_after_deduct := balance_before_deduct - amount
    let deduct_txn : Transaction :=
      { user_id := s.user.id
        transaction_type := TransactionType.paymentReceived
        amount := amount
        balance_before := balance_before_deduct
        balance_after := balance_after_deduct
        status := TransactionStatus.pending
        description := "Airtime Sale (Principal) to " ++ recipient_phone }
    if 0 < resp.numSent then
      let deduct_txn := { deduct_txn with status := TransactionStatus.completed }
      let commission := amount * COMMISSION_RATE
      let balance_before_comm := balance_after_deduct
      let balance_after_comm := balance_before_comm + commission
      let comm_txn : Transaction :=
        { user_id := s.user.id
          transaction_type := TransactionType.deposit
          amount := commission
          balance_before := balance_before_comm
          balance_after := balance_after_comm
          status := TransactionStatus.completed
          description := "Commission (2%) for Airtime Sale to " ++ recipient_phone }
      let sale : AirtimeSale :=
        { user_id := s.user.id
          recipient_phone := recipient_phone
          amount := amount
          commission := commission
          status := TransactionStatus.completed }
      ({ user := { s.user with wallet_balance := balance_after_comm }
         transactions := s.transactions ++ [deduct_txn, comm_txn]
         airtime_sales := s.airtime_sales ++ [sale] },
       Except.ok sale)
    else
      let deduct_txn :=
        { deduct_txn with
          status := TransactionStatus.failed
          description := deduct_txn.description ++ " [Error: " ++ resp.errorMessage ++ "]" }
      let sale : AirtimeSale :=
        { user_id := s.user.id
          recipient_phone := recipient_phone
          amount := amount
          commission := 0
          status := TransactionStatus.failed }
      ({ user := { s.user with wallet_balance := balance_after_deduct + amount }
         transactions := s.transactions ++ [deduct_txn]
         airtime_sales := s.airtime_sales ++ [sale] },
       Except.error (ApiError.http 500 ("Failed to send airtime: " ++ resp.errorMessage)))

/-- Order in which send_money acquires its FOR UPDATE row locks: the
authenticated sender's row first (src/app/routers/wallet.py line 145),
then the recipient's row (line 153) — determined by transfer direction,
not by account id. -/
def send_money_lock_order (sender_id recipient_id : Nat) : List Nat :=
  [sender_id, recipient_id]

/-- Scenario C investment: principal 1000 on the daily plan, created at
time 0 with no accrual recorded yet. -/
def scenario_c_invest : UserInvest :=
  { id := 1
    user_id := 1
    amount := 1000
    interest_rate := INTEREST_RATES InvestPeriod.daily
    period := InvestPeriod.daily
    accumulated_interest := 0
    last_accrual_update := none
    created_at := 0
    is_active := true }

/-- Scenario B borrower: rate 15%, empty wallet, stored limit consistent
with a completed deposit volume of 10000 (so the recalculated limit
50 + 5% of 10000 = 550 covers a request of 100). -/
def borrower_b : User :=
  { id := 1
    phone_number := "0700000001"
    wallet_balance := 0
    loan_limit := 550
    loan_percent := 15 }

/-- Scenario B loan: the pending loan produced by request_loan for amount
100 at rate 15 (interest_amount 15, total_amount 100). -/
def loan_b : Loan :=
  (request_loan borrower_b [] 0 0 10000 100 1 0).toOption.getD default

/-- Approval session for Scenario B. -/
def approve_state_b : LoanApproveState :=
  { loan := loan_b, borrower := borrower_b, transactions := [] }

/-- Scenario E loan: active, total repayable 100, nothing paid yet. -/
def loan_e : Loan :=
  { id := 7
    user_id := 1
    principal_amount := 100
    interest_rate := 15
    interest_amount := 15
    total_amount := 100
    amount_paid := 0
    status := LoanStatus.active }

/-- Scenario E repayment session: payer balance exactly 100. -/
def repay_state_e : LoanRepayState :=
  { user :=
      { id := 1
        phone_number := "0700000001"
        wallet_balance := 100
        loan_limit := 50
        loan_percent := 15 }
    loan := loan_e
    transactions := [] }

/-- Scenario E repayment session with payer balance 99, below the capped
payment of 100. -/
def repay_state_e_poor : LoanRepayState :=
  { repay_state_e with user := { repay_state_e.user with wallet_balance := 99 } }

/-- Account A of Scenario D (id 1, balance 100). -/
def scenario_d_a : User :=
  { id := 1
    phone_number := "0700000001"
    wallet_balance := 100
    loan_limit := 50
    loan_percent := 15 }

/-- Account B of Scenario D (id 2, balance 100). -/
def scenario_d_b : User :=
  { id := 2
    phone_number := "0700000002"
    wallet_balance := 100
    loan_limit := 50
    loan_percent := 15 }

/-- Transfer session from A to B. -/
def transfer_state_ab : TransferState :=
  { sender := scenario_d_a, recipient := some scenario_d_b, transactions := [] }

/-- Transfer session whose recipient lookup found nobody. -/
def transfer_state_none : TransferState :=
  { sender := scenario_d_a, recipient := none, transactions := [] }

/-- Wallet session of a user with balance 100 and no prior transactions. -/
def wallet_state_0 : WalletState :=
  { user := scenario_d_a, transactions := [] }

/-- Airtime-sale session of a seller with balance 100. -/
def sell_state_0 : SellState :=
  { user := scenario_d_a, transactions := [], airtime_sales := [] }

/-- Gateway response reporting failure. -/
def gateway_failure : GatewayResp := { numSent := 0, errorMessage := "boom" }

/-- Gateway response reporting success. -/
def gateway_success : GatewayResp := { numSent := 1, errorMessage := "" }

/-- Loan-approval session used by the C1 witness: a pending loan of 100 at
precomputed interest 15 against a borrower with balance 0. -/
def approve_state_w : LoanApproveState :=
  { loan :=
      { id := 3
        user_id := 1
        principal_amount := 100
        interest_rate := 15
        interest_amount := 15
        total_amount := 100
        amount_paid := 0
        status := LoanStatus.pending }
    borrower := scenario_d_a
    transactions := [] }

/-- Investment session holding the Scenario C investment, user balance 100. -/
def invest_state_0 : InvestState :=
  { user := scenario_d_a, transactions := [], invests := [scenario_c_invest] }

/-
Helper lemmas.
-/

theorem entry_at_append (l xs : List Transaction) (n : Nat) :
    entry_at (l ++ xs) (l.length + n) = entry_at xs n := by
  unfold entry_at
  rw [List.drop_append]

theorem entry_at_append_zero (l xs : List Transaction) :
    entry_at (l ++ xs) l.length = entry_at xs 0 := by
  have h := entry_at_append l xs 0
  rwa [Nat.add_zero] at h

theorem entry_at_append_one (l xs : List Transaction) :
    entry_at (l ++ xs) (l.length + 1) = entry_at xs 1 :=
  entry_at_append l xs 1

theorem entry_at_append_lt (l xs : List Transaction) (n : Nat) (h : n < l.length) :
    entry_at (l ++ xs) n = entry_at l n := by
  unfold entry_at
  rw [List.drop_append_of_le_length (Nat.le_of_lt h)]
  match hd : l.drop n with
  | [] =>
      have hlen := List.length_drop n l
      rw [hd] at hlen
      simp at hlen
      omega
  | a :: rest => simp

theorem period_durations_ne_zero (p : InvestPeriod) : PERIOD_DURATIONS p ≠ 0 := by
  cases p <;> norm_num [PERIOD_DURATIONS]

theorem entry_at_singleton (t : Transaction) : entry_at [t] 0 = t := rfl

theorem entry_at_pair_zero (t u : Transaction) : entry_at [t, u] 0 = t := rfl

theorem entry_at_pair_one (t u : Transaction) : entry_at [t, u] 1 = u := rfl

/-- C4: for every active investment, update_investment_interest adds
exactly principal × rate × (elapsedSeconds / periodSeconds) to
accumulated_interest, where elapsed time is measured since
last_accrual_update (or created_at when no accrual is recorded), stamps
last_accrual_update with now, and leaves principal, rate and period
unchanged (accrual is linear and non-compounding, computed on the
principal only); the period table is daily = 3%/86400s, weekly =
4%/604800s, monthly = 5%/2592000s, yearly = 10%/31536000s; and Scenario C
(principal 1000, daily plan, 43200 elapsed seconds) yields accumulated
interest 15. -/
theorem c4_accrual_linear :
    (∀ (inv : UserInvest) (now : ℚ), inv.is_active = true →
      (update_investment_interest inv now).accumulated_interest =
        inv.accumulated_interest + inv.amount * inv.interest_rate *
          ((now - inv.last_accrual_update.getD inv.created_at) / PERIOD_DURATIONS inv.period) ∧
      (update_investment_interest inv now).last_accrual_update = some now ∧
      (update_investment_interest inv now).amount = inv.amount ∧
      (update_investment_interest inv now).interest_rate = inv.interest_rate ∧
      (update_investment_interest inv now).period = inv.period) ∧
    (INTEREST_RATES InvestPeriod.daily = 3 / 100 ∧
     PERIOD_DURATIONS InvestPeriod.daily = 86400 ∧
     INTEREST_RATES InvestPeriod.weekly = 4 / 100 ∧
     PERIOD_DURATIONS InvestPeriod.weekly = 604800 ∧
     INTEREST_RATES InvestPeriod.monthly = 5 / 100 ∧
     PERIOD_DURATIONS InvestPeriod.monthly = 2592000 ∧
     INTEREST_RATES InvestPeriod.yearly = 10 / 100 ∧
     PERIOD_DURATIONS InvestPeriod.yearly = 31536000) ∧
    (update_investment_interest scenario_c_invest 43200).accumulated_interest = 15 := by
  refine ⟨?_, ⟨rfl, rfl, rfl, rfl, rfl, rfl, rfl, rfl⟩, ?_⟩
  · intro inv now h
    unfold update_investment_interest
    rw [if_pos h, if_neg (period_durations_ne_zero inv.period)]
    exact ⟨rfl, rfl, rfl, rfl, rfl⟩
  · simp only [update_investment_interest, scenario_c_invest, INTEREST_RATES,
      PERIOD_DURATIONS, Option.getD]
    norm_num

/-- Witness for c4_accrual_linear at the Scenario C investment. -/
theorem c4_accrual_linear_witness :
    scenario_c_invest.is_active = true ∧
    (update_investment_interest scenario_c_invest 43200).accumulated_interest =
      scenario_c_invest.accumulated_interest +
        scenario_c_invest.amount * scenario_c_invest.interest_rate *
          ((43200 - scenario_c_invest.last_accrual_update.getD scenario_c_invest.created_at) /
            PERIOD_DURATIONS scenario_c_invest.period) :=
  ⟨rfl, (c4_accrual_linear.1 scenario_c_invest 43200 rfl).1⟩

/-- C5: recalculate_loan_limit is idempotent given unchanged inputs.  With
the same three volume-query results, a second call started from the stored
limit produced by the first call stores the same limit again (the
hysteresis condition |current − new| > 1 is false for the re-stored value)
and returns the same recomputed limit; the source function never
constructs a ledger entry. -/
theorem c5_recalculate_limit_idempotent (a i d l : ℚ) :
    (recalculate_loan_limit a i d (recalculate_loan_limit a i d l).1).1 =
      (recalculate_loan_limit a i d l).1 ∧
    (recalculate_loan_limit a i d (recalculate_loan_limit a i d l).1).2 =
      (recalculate_loan_limit a i d l).2 := by
  unfold recalculate_loan_limit
  dsimp only
  by_cases h : 1 < |l - (50 + (a + i + d) * (5 / 100))|
  · rw [if_pos h]
    dsimp only
    rw [if_neg (show ¬ 1 < |50 + (a + i + d) * (5 / 100) -
      (50 + (a + i + d) * (5 / 100))| by simp)]
    exact ⟨rfl, rfl⟩
  · rw [if_neg h]
    dsimp only
    rw [if_neg h]
    exact ⟨rfl, rfl⟩

/-- C9: a withdrawal of a positive amount a by a user whose balance covers
it deducts the full amount (balance_after = balance_before − a) and
records a single completed withdrawal entry of amount a; the 3% fee and
the net payout 0.97 × a are computed but surface only in that entry's
description string — no separate fee entry is written. -/
theorem c9_withdraw_full_amount_fee_in_text (s : WalletState) (a : ℚ)
    (hpos : 0 < a) (h : ¬ s.user.wallet_balance < a) :
    (withdraw_money s a).1.user.wallet_balance = s.user.wallet_balance - a ∧
    (withdraw_money s a).1.transactions.length = s.transactions.length + 1 ∧
    (withdraw_money s a).2 =
      Except.ok (entry_at (withdraw_money s a).1.transactions s.transactions.length) ∧
    (entry_at (withdraw_money s a).1.transactions s.transactions.length).transaction_type =
      TransactionType.withdrawal ∧
    (entry_at (withdraw_money s a).1.transactions s.transactions.length).status =
      TransactionStatus.completed ∧
    (entry_at (withdraw_money s a).1.transactions s.transactions.length).amount = a ∧
    (entry_at (withdraw_money s a).1.transactions s.transactions.length).balance_before =
      s.user.wallet_balance ∧
    (entry_at (withdraw_money s a).1.transactions s.transactions.length).balance_after =
      s.user.wallet_balance - a ∧
    (entry_at (withdraw_money s a).1.transactions s.transactions.length).description =
      "Withdrawal: " ++ toString a ++ " | Fee: " ++ toString (a * (3 / 100))
        ++ " | Net: " ++ toString (a - a * (3 / 100)) ∧
    a - a * (3 / 100) = (97 / 100) * a := by
  unfold withdraw_money
  rw [if_neg h]
  dsimp only
  rw [entry_at_append_zero]
  refine ⟨rfl, by simp, rfl, rfl, rfl, rfl, rfl, rfl, rfl, by ring⟩

/-- Witness for c9_withdraw_full_amount_fee_in_text: withdrawal of 100
from a balance of 100. -/
theorem c9_withdraw_full_amount_fee_in_text_witness :
    (0 : ℚ) < 100 ∧ ¬ wallet_state_0.user.wallet_balance < 100 ∧
    ((withdraw_money wallet_state_0 100).1.user.wallet_balance =
        wallet_state_0.user.wallet_balance - 100 ∧
      (withdraw_money wallet_state_0 100).1.transactions.length =
        wallet_state_0.transactions.length + 1 ∧
      (withdraw_money wallet_state_0 100).2 =
        Except.ok (entry_at (withdraw_money wallet_state_0 100).1.transactions
          wallet_state_0.transactions.length) ∧
      (entry_at (withdraw_money wallet_state_0 100).1.transactions
          wallet_state_0.transactions.length).transaction_type =
        TransactionType.withdrawal ∧
      (entry_at (withdraw_money wallet_state_0 100).1.transactions
          wallet_state_0.transactions.length).status = TransactionStatus.completed ∧
      (entry_at (withdraw_money wallet_state_0 100).1.transactions
          wallet_state_0.transactions.length).amount = 100 ∧
      (entry_at (withdraw_money wallet_state_0 100).1.transactions
          wallet_state_0.transactions.length).balance_before =
        wallet_state_0.user.wallet_balance ∧
      (entry_at (withdraw_money wallet_state_0 100).1.transactions
          wallet_state_0.transactions.length).balance_after =
        wallet_state_0.user.wallet_balance - 100 ∧
      (entry_at (withdraw_money wallet_state_0 100).1.transactions
          wallet_state_0.transactions.length).description =
        "Withdrawal: " ++ toString (100 : ℚ) ++ " | Fee: " ++ toString ((100 : ℚ) * (3 / 100))
          ++ " | Net: " ++ toString ((100 : ℚ) - 100 * (3 / 100)) ∧
      (100 : ℚ) - 100 * (3 / 100) = (97 / 100) * 100) :=
  ⟨by norm_num, by norm_num [wallet_state_0, scenario_d_a],
   c9_withdraw_full_amount_fee_in_text wallet_state_0 100 (by norm_num)
     (by norm_num [wallet_state_0, scenario_d_a])⟩

/-- C10: the loan limit stored by a successful deposit (and, for both
parties, by a successful transfer) is utils.calculate_loan_limit of the
total completed transaction volume including the new entries — a tiered
formula whose only outputs are 50000, 60000, 100000, 500000 and 1000000 —
written unconditionally, bypassing the base-50 + 5%-of-volume scoring and
hysteresis of the loan router's recalculate_loan_limit; consequently the
stored limit after a deposit is always at least 50000. -/
theorem c10_deposit_overwrites_limit_tiered :
    (∀ v : ℚ, calculate_loan_limit v = 50000 ∨ calculate_loan_limit v = 60000 ∨
      calculate_loan_limit v = 100000 ∨ calculate_loan_limit v = 500000 ∨
      calculate_loan_limit v = 1000000) ∧
    (∀ v : ℚ, 50000 ≤ calculate_loan_limit v) ∧
    (∀ (s : WalletState) (a : ℚ),
      (deposit_funds s a).1.user.loan_limit =
        calculate_loan_limit
          (completed_volume s.user.id (s.transactions ++ [(deposit_funds s a).2]))) ∧
    (∀ (s : WalletState) (a : ℚ), 50000 ≤ (deposit_funds s a).1.user.loan_limit) ∧
    (∀ (s : TransferState) (a : ℚ) (d : Option String) (r : User),
      s.recipient = some r → r.id ≠ s.sender.id → ¬ s.sender.wallet_balance < a →
      (send_money s a d).1.sender.loan_limit =
        calculate_loan_limit (completed_volume s.sender.id (send_money s a d).1.transactions) ∧
      ((send_money s a d).1.recipient.getD default).loan_limit =
        calculate_loan_limit (completed_volume r.id (send_money s a d).1.transactions)) ∧
    calculate_loan_limit 0 ≠ 50 + 0 * (5 / 100) := by
  have htier : ∀ v : ℚ, calculate_loan_limit v = 50000 ∨ calculate_loan_limit v = 60000 ∨
      calculate_loan_limit v = 100000 ∨ calculate_loan_limit v = 500000 ∨
      calculate_loan_limit v = 1000000 := by
    intro v
    unfold calculate_loan_limit
    split_ifs <;> simp
  have hfifty : ∀ v : ℚ, 50000 ≤ calculate_loan_limit v := by
    intro v
    unfold calculate_loan_limit
    split_ifs <;> norm_num
  refine ⟨htier, hfifty, fun s a => rfl, fun s a => hfifty _, ?_, by norm_num [calculate_loan_limit]⟩
  intro s a d r hrec hid hbal
  unfold send_money
  rw [if_neg hbal, hrec]
  dsimp only
  rw [if_neg hid, if_neg hbal]
  exact ⟨rfl, rfl⟩

/-- Witness for c10_deposit_overwrites_limit_tiered: transfer of 50 from
account 1 to account 2. -/
theorem c10_deposit_overwrites_limit_tiered_witness :
    transfer_state_ab.recipient = some scenario_d_b ∧
    scenario_d_b.id ≠ transfer_state_ab.sender.id ∧
    ¬ transfer_state_ab.sender.wallet_balance < 50 ∧
    ((send_money transfer_state_ab 50 none).1.sender.loan_limit =
        calculate_loan_limit (completed_volume transfer_state_ab.sender.id
          (send_money transfer_state_ab 50 none).1.transactions) ∧
      ((send_money transfer_state_ab 50 none).1.recipient.getD default).loan_limit =
        calculate_loan_limit (completed_volume scenario_d_b.id
          (send_money transfer_state_ab 50 none).1.transactions)) :=
  ⟨rfl, by decide, by norm_num [transfer_state_ab, scenario_d_a],
   c10_deposit_overwrites_limit_tiered.2.2.2.2.1 transfer_state_ab 50 none scenario_d_b rfl
     (by decide) (by norm_num [transfer_state_ab, scenario_d_a])⟩

/-- C2: approving a pending loan computes fee = 5% of the principal and
disbursement D = principal − fee − interest_amount; when D ≤ 0 it fails
with an error and returns the original state (no balance change, no
ledger entry, loan still pending); otherwise it credits exactly D to the
borrower in a single completed loanDisbursement entry and stamps
approved_at.  For the Scenario B loan (principal 100, rate 15 so
interest_amount 15, total_amount 100) the borrower's balance increases by
exactly 80. -/
theorem c2_approve_pending_loan (s : LoanApproveState) (now : ℚ)
    (hp : s.loan.status = LoanStatus.pending) :
    (s.loan.principal_amount - s.loan.principal_amount * APPLICATION_FEE_PERCENT -
        s.loan.interest_amount ≤ 0 →
      approve_loan s now = (s, Except.error (ApiError.http 400
        "Calculated disbursement is zero or negative. Check rates."))) ∧
    (0 < s.loan.principal_amount - s.loan.principal_amount * APPLICATION_FEE_PERCENT -
        s.loan.interest_amount →
      (approve_loan s now).1.borrower.wallet_balance =
        s.borrower.wallet_balance + (s.loan.principal_amount -
          s.loan.principal_amount * APPLICATION_FEE_PERCENT - s.loan.interest_amount) ∧
      (approve_loan s now).1.loan.status = LoanStatus.approved ∧
      (approve_loan s now).1.loan.approved_at = some now ∧
      (approve_loan s now).1.transactions.length = s.transactions.length + 1 ∧
      (entry_at (approve_loan s now).1.transactions s.transactions.length).transaction_type =
        TransactionType.loanDisbursement ∧
      (entry_at (approve_loan s now).1.transactions s.transactions.length).status =
        TransactionStatus.completed ∧
      (entry_at (approve_loan s now).1.transactions s.transactions.length).amount =
        s.loan.principal_amount - s.loan.principal_amount * APPLICATION_FEE_PERCENT -
          s.loan.interest_amount ∧
      entry_balanced (entry_at (approve_loan s now).1.transactions s.transactions.length) ∧
      (entry_at (approve_loan s now).1.transactions s.transactions.length).balance_after =
        (approve_loan s now).1.borrower.wallet_balance) ∧
    (loan_b.principal_amount = 100 ∧ loan_b.interest_amount = 15 ∧
      loan_b.total_amount = 100 ∧ loan_b.status = LoanStatus.pending ∧
      (approve_loan approve_state_b 0).1.borrower.wallet_balance =
        borrower_b.wallet_balance + 80) := by
  have hnn : ¬ s.loan.status ≠ LoanStatus.pending := not_not_intro hp
  refine ⟨?_, ?_, ?_⟩
  · intro hd
    unfold approve_loan
    rw [if_neg hnn]
    dsimp only
    rw [if_pos hd]
  · intro hd
    unfold approve_loan
    rw [if_neg hnn]
    dsimp only
    rw [if_neg (not_le_of_lt hd)]
    rw [entry_at_append_zero, entry_at_singleton]
    refine ⟨rfl, rfl, rfl, by simp, rfl, rfl, rfl, ?_, rfl⟩
    simp [entry_balanced, signed_amount, TransactionType.is_credit]
  · refine ⟨?_, ?_, ?_, ?_, ?_⟩ <;>
      · simp only [loan_b, borrower_b, approve_state_b, request_loan,
          recalculate_loan_limit, approve_loan, APPLICATION_FEE_PERCENT]
        norm_num [Except.toOption]

/-- Witness for c2_approve_pending_loan at the Scenario B approval. -/
theorem c2_approve_pending_loan_witness :
    approve_state_b.loan.status = LoanStatus.pending ∧
    (0 : ℚ) < approve_state_b.loan.principal_amount -
      approve_state_b.loan.principal_amount * APPLICATION_FEE_PERCENT -
      approve_state_b.loan.interest_amount ∧
    ((approve_state_b.loan.principal_amount -
          approve_state_b.loan.principal_amount * APPLICATION_FEE_PERCENT -
          approve_state_b.loan.interest_amount ≤ 0 →
        approve_loan approve_state_b 0 = (approve_state_b, Except.error (ApiError.http 400
          "Calculated disbursement is zero or negative. Check rates.")))) :=
  ⟨by simp only [approve_state_b, loan_b, borrower_b, request_loan, recalculate_loan_limit]
      norm_num [Except.toOption],
   by simp only [approve_state_b, loan_b, borrower_b, request_loan, recalculate_loan_limit,
        APPLICATION_FEE_PERCENT]
      norm_num [Except.toOption],
   (c2_approve_pending_loan approve_state_b 0
      (by simp only [approve_state_b, loan_b, borrower_b, request_loan, recalculate_loan_limit]
          norm_num [Except.toOption])).1⟩

/-- C3: repaying a loan in approved, active or defaulted state charges
min(requested, remaining) where remaining = total_amount − amount_paid;
it fails with an insufficient-funds error, leaving balance, ledger and
loan untouched, when the payer's balance is below that payment; otherwise
it debits exactly the payment in one completed loanRepayment entry,
increments amount_paid by the payment, and transitions the loan to paid
(stamping paid_at) exactly when the new amount_paid reaches
total_amount. -/
theorem c3_repay_min_capped (s : LoanRepayState) (a now : ℚ)
    (hst : s.loan.status = LoanStatus.active ∨ s.loan.status = LoanStatus.approved ∨
      s.loan.status = LoanStatus.defaulted) :
    (s.user.wallet_balance < min a (s.loan.total_amount - s.loan.amount_paid) →
      repay_loan s a now =
        (s, Except.error (ApiError.http 400 "Insufficient wallet balance"))) ∧
    (¬ s.user.wallet_balance < min a (s.loan.total_amount - s.loan.amount_paid) →
      (repay_loan s a now).1.user.wallet_balance =
        s.user.wallet_balance - min a (s.loan.total_amount - s.loan.amount_paid) ∧
      (repay_loan s a now).1.loan.amount_paid =
        s.loan.amount_paid + min a (s.loan.total_amount - s.loan.amount_paid) ∧
      (repay_loan s a now).1.transactions.length = s.transactions.length + 1 ∧
      (entry_at (repay_loan s a now).1.transactions s.transactions.length).transaction_type =
        TransactionType.loanRepayment ∧
      (entry_at (repay_loan s a now).1.transactions s.transactions.length).status =
        TransactionStatus.completed ∧
      (entry_at (repay_loan s a now).1.transactions s.transactions.length).amount =
        min a (s.loan.total_amount - s.loan.amount_paid) ∧
      (entry_at (repay_loan s a now).1.transactions s.transactions.length).balance_after =
        (repay_loan s a now).1.user.wallet_balance ∧
      (s.loan.amount_paid + min a (s.loan.total_amount - s.loan.amount_paid) ≥
          s.loan.total_amount →
        (repay_loan s a now).1.loan.status = LoanStatus.paid ∧
        (repay_loan s a now).1.loan.paid_at = some now) ∧
      (¬ s.loan.amount_paid + min a (s.loan.total_amount - s.loan.amount_paid) ≥
          s.loan.total_amount →
        (repay_loan s a now).1.loan.status = s.loan.status ∧
        (repay_loan s a now).1.loan.paid_at = s.loan.paid_at)) := by
  have hnn : ¬ ¬ (s.loan.status = LoanStatus.active ∨ s.loan.status = LoanStatus.approved ∨
      s.loan.status = LoanStatus.defaulted) := not_not_intro hst
  constructor
  · intro hlt
    unfold repay_loan
    rw [if_neg hnn]
    dsimp only
    rw [if_pos hlt]
  · intro hlt
    unfold repay_loan
    rw [if_neg hnn]
    dsimp only
    rw [if_neg hlt]
    rw [entry_at_append_zero]
    by_cases hpaid : s.loan.amount_paid + min a (s.loan.total_amount - s.loan.amount_paid) ≥
        s.loan.total_amount
    · rw [if_pos hpaid]
      exact ⟨rfl, rfl, by simp, rfl, rfl, rfl, rfl,
        fun _ => ⟨rfl, rfl⟩, fun hc => absurd hpaid hc⟩
    · rw [if_neg hpaid]
      exact ⟨rfl, rfl, by simp, rfl, rfl, rfl, rfl,
        fun hc => absurd hc hpaid, fun _ => ⟨rfl, rfl⟩⟩

/-- Witness for c3_repay_min_capped: Scenario E, repay(150) on a loan with
remaining 100 charges exactly 100, empties the balance-100 wallet and
settles the loan; the same request fails when the balance is 99. -/
theorem c3_repay_min_capped_witness :
    (repay_state_e.loan.status = LoanStatus.active ∨
      repay_state_e.loan.status = LoanStatus.approved ∨
      repay_state_e.loan.status = LoanStatus.defaulted) ∧
    ¬ repay_state_e.user.wallet_balance <
        min 150 (repay_state_e.loan.total_amount - repay_state_e.loan.amount_paid) ∧
    (repay_loan repay_state_e 150 0).1.user.wallet_balance =
      repay_state_e.user.wallet_balance -
        min 150 (repay_state_e.loan.total_amount - repay_state_e.loan.amount_paid) ∧
    (repay_state_e_poor.user.wallet_balance <
      min 150 (repay_state_e_poor.loan.total_amount - repay_state_e_poor.loan.amount_paid)) ∧
    repay_loan repay_state_e_poor 150 0 =
      (repay_state_e_poor, Except.error (ApiError.http 400 "Insufficient wallet balance")) := by
  have h1 : repay_state_e.loan.status = LoanStatus.active ∨
      repay_state_e.loan.status = LoanStatus.approved ∨
      repay_state_e.loan.status = LoanStatus.defaulted := Or.inl rfl
  have h2 : ¬ repay_state_e.user.wallet_balance <
      min 150 (repay_state_e.loan.total_amount - repay_state_e.loan.amount_paid) := by
    norm_num [repay_state_e, loan_e]
  have h3 : repay_state_e_poor.user.wallet_balance <
      min 150 (repay_state_e_poor.loan.total_amount - repay_state_e_poor.loan.amount_paid) := by
    norm_num [repay_state_e_poor, repay_state_e, loan_e]
  have h4 : repay_state_e_poor.loan.status = LoanStatus.active ∨
      repay_state_e_poor.loan.status = LoanStatus.approved ∨
      repay_state_e_poor.loan.status = LoanStatus.defaulted := Or.inl rfl
  exact ⟨h1, h2, ((c3_repay_min_capped repay_state_e 150 0 h1).2 h2).1,
    h3, (c3_repay_min_capped repay_state_e_poor 150 0 h4).1 h3⟩

/-- C6: send_money is all-or-nothing.  Each validation failure —
insufficient balance, recipient not found, recipient equal to sender —
returns the original state unchanged (sender balance untouched, no ledger
entry) together with the corresponding error; on success the sender is
debited and the recipient credited by exactly the amount and exactly the
two entries (a completed transferOut for the sender, a completed
transferIn for the recipient) are appended. -/
theorem c6_transfer_all_or_nothing :
    (∀ (s : TransferState) (a : ℚ) (d : Option String),
      s.sender.wallet_balance < a →
      send_money s a d = (s, Except.error (ApiError.http 400 "Insufficient wallet balance"))) ∧
    (∀ (s : TransferState) (a : ℚ) (d : Option String),
      ¬ s.sender.wallet_balance < a → s.recipient = none →
      send_money s a d = (s, Except.error (ApiError.http 404 "Recipient not found"))) ∧
    (∀ (s : TransferState) (a : ℚ) (d : Option String) (r : User),
      ¬ s.sender.wallet_balance < a → s.recipient = some r → r.id = s.sender.id →
      send_money s a d =
        (s, Except.error (ApiError.http 400 "Cannot send money to yourself"))) ∧
    (∀ (s : TransferState) (a : ℚ) (d : Option String) (r : User),
      s.recipient = some r → r.id ≠ s.sender.id → ¬ s.sender.wallet_balance < a →
      (send_money s a d).1.sender.wallet_balance = s.sender.wallet_balance - a ∧
      ((send_money s a d).1.recipient.getD default).wallet_balance = r.wallet_balance + a ∧
      (send_money s a d).1.transactions.length = s.transactions.length + 2 ∧
      (entry_at (send_money s a d).1.transactions s.transactions.length).user_id =
        s.sender.id ∧
      (entry_at (send_money s a d).1.transactions s.transactions.length).transaction_type =
        TransactionType.transferOut ∧
      (entry_at (send_money s a d).1.transactions s.transactions.length).amount = a ∧
      (entry_at (send_money s a d).1.transactions s.transactions.length).status =
        TransactionStatus.completed ∧
      (entry_at (send_money s a d).1.transactions s.transactions.length).balance_before =
        s.sender.wallet_balance ∧
      (entry_at (send_money s a d).1.transactions s.transactions.length).balance_after =
        s.sender.wallet_balance - a ∧
      (entry_at (send_money s a d).1.transactions (s.transactions.length + 1)).user_id = r.id ∧
      (entry_at (send_money s a d).1.transactions
        (s.transactions.length + 1)).transaction_type = TransactionType.transferIn ∧
      (entry_at (send_money s a d).1.transactions (s.transactions.length + 1)).amount = a ∧
      (entry_at (send_money s a d).1.transactions (s.transactions.length + 1)).status =
        TransactionStatus.completed ∧
      (entry_at (send_money s a d).1.transactions (s.transactions.length + 1)).balance_before =
        r.wallet_balance ∧
      (entry_at (send_money s a d).1.transactions (s.transactions.length + 1)).balance_after =
        r.wallet_balance + a) := by
  refine ⟨?_, ?_, ?_, ?_⟩
  · intro s a d hlt
    unfold send_money
    rw [if_pos hlt]
  · intro s a d hge hrec
    unfold send_money
    rw [if_neg hge, hrec]
  · intro s a d r hge hrec hid
    unfold send_money
    rw [if_neg hge, hrec]
    dsimp only
    rw [if_pos hid]
  · intro s a d r hrec hid hge
    unfold send_money
    rw [if_neg hge, hrec]
    dsimp only
    rw [if_neg hid, if_neg hge]
    rw [entry_at_append_zero, entry_at_append_one, entry_at_pair_zero, entry_at_pair_one]
    exact ⟨rfl, rfl, by simp, rfl, rfl, rfl, rfl, rfl, rfl, rfl, rfl, rfl, rfl, rfl, rfl⟩

/-- Witness for c6_transfer_all_or_nothing: a failed lookup leaves the
state untouched, and a transfer of 50 from account 1 to account 2 debits
and credits exactly 50. -/
theorem c6_transfer_all_or_nothing_witness :
    (¬ transfer_state_none.sender.wallet_balance < 50) ∧
    transfer_state_none.recipient = none ∧
    send_money transfer_state_none 50 none =
      (transfer_state_none, Except.error (ApiError.http 404 "Recipient not found")) ∧
    transfer_state_ab.recipient = some scenario_d_b ∧
    scenario_d_b.id ≠ transfer_state_ab.sender.id ∧
    (¬ transfer_state_ab.sender.wallet_balance < 50) ∧
    (send_money transfer_state_ab 50 none).1.sender.wallet_balance =
      transfer_state_ab.sender.wallet_balance - 50 ∧
    ((send_money transfer_state_ab 50 none).1.recipient.getD default).wallet_balance =
      scenario_d_b.wallet_balance + 50 := by
  have h1 : ¬ transfer_state_none.sender.wallet_balance < 50 := by
    norm_num [transfer_state_none, scenario_d_a]
  have h2 : ¬ transfer_state_ab.sender.wallet_balance < 50 := by
    norm_num [transfer_state_ab, scenario_d_a]
  have h3 : scenario_d_b.id ≠ transfer_state_ab.sender.id := by decide
  refine ⟨h1, rfl, c6_transfer_all_or_nothing.2.1 transfer_state_none 50 none h1 rfl,
    rfl, h3, h2, ?_, ?_⟩
  · exact (c6_transfer_all_or_nothing.2.2.2 transfer_state_ab 50 none scenario_d_b rfl h3 h2).1
  · exact (c6_transfer_all_or_nothing.2.2.2 transfer_state_ab 50 none scenario_d_b rfl h3
      h2).2.1

/-- C7 counterexample: on gateway failure after the deduction entry was
recorded and the balance debited, sell_airtime does not emit a
compensating entry — the committed ledger of the run
(balance 100, amount 50, numSent 0) holds exactly one entry — and it does
mutate the original entry: its status ends failed and its description is
no longer the one it was created with; the balance is restored by a direct
re-credit instead. -/
theorem c7_counterexample :
    (sell_airtime sell_state_0 50 "0799999999" gateway_failure).1.transactions.length = 1 ∧
    (entry_at (sell_airtime sell_state_0 50 "0799999999" gateway_failure).1.transactions
      0).status = TransactionStatus.failed ∧
    (entry_at (sell_airtime sell_state_0 50 "0799999999" gateway_failure).1.transactions
      0).description = "Airtime Sale (Principal) to 0799999999 [Error: boom]" ∧
    (entry_at (sell_airtime sell_state_0 50 "0799999999" gateway_failure).1.transactions
        0).description ≠ "Airtime Sale (Principal) to 0799999999" ∧
    (sell_airtime sell_state_0 50 "0799999999" gateway_failure).1.user.wallet_balance = 100 ∧
    (sell_airtime sell_state_0 50 "0799999999" gateway_failure).2 =
      Except.error (ApiError.http 500 "Failed to send airtime: boom") := by
  have hbal : ¬ sell_state_0.user.wallet_balance < 50 := by
    norm_num [sell_state_0, scenario_d_a]
  unfold sell_airtime
  rw [if_neg hbal]
  dsimp only
  rw [if_neg (by norm_num [gateway_failure])]
  refine ⟨rfl, rfl, rfl, by decide, ?_, rfl⟩
  norm_num [sell_state_0, scenario_d_a]

/-- C7 amended: when the gateway reports failure after the pending
deduction entry was recorded and the balance debited, sell_airtime
restores the balance by adding the amount straight back (no compensating
ledger entry: exactly one entry is appended), mutates that original entry
in place — status set to failed, the gateway error appended to its
description — and leaves every entry recorded before the call
untouched. -/
theorem c7_failure_mutates_entry_no_compensation (s : SellState) (a : ℚ)
    (phone : String) (resp : GatewayResp)
    (hbal : ¬ s.user.wallet_balance < a) (hfail : ¬ 0 < resp.numSent) :
    (sell_airtime s a phone resp).1.user.wallet_balance = s.user.wallet_balance ∧
    (sell_airtime s a phone resp).1.transactions.length = s.transactions.length + 1 ∧
    (∀ n, n < s.transactions.length →
      entry_at (sell_airtime s a phone resp).1.transactions n = entry_at s.transactions n) ∧
    (entry_at (sell_airtime s a phone resp).1.transactions
      s.transactions.length).transaction_type = TransactionType.paymentReceived ∧
    (entry_at (sell_airtime s a phone resp).1.transactions s.transactions.length).amount = a ∧
    (entry_at (sell_airtime s a phone resp).1.transactions s.transactions.length).status =
      TransactionStatus.failed ∧
    (entry_at (sell_airtime s a phone resp).1.transactions
      s.transactions.length).balance_before = s.user.wallet_balance ∧
    (entry_at (sell_airtime s a phone resp).1.transactions
      s.transactions.length).balance_after = s.user.wallet_balance - a ∧
    (entry_at (sell_airtime s a phone resp).1.transactions
        s.transactions.length).description =
      "Airtime Sale (Principal) to " ++ phone ++ " [Error: " ++ resp.errorMessage ++ "]" ∧
    (sell_airtime s a phone resp).2 =
      Except.error (ApiError.http 500 ("Failed to send airtime: " ++ resp.errorMessage)) := by
  unfold sell_airtime
  rw [if_neg hbal]
  dsimp only
  rw [if_neg hfail]
  rw [entry_at_append_zero, entry_at_singleton]
  refine ⟨by ring, by simp, ?_, rfl, rfl, rfl, rfl, rfl, rfl, rfl⟩
  intro n hn
  exact entry_at_append_lt _ _ _ hn

/-- Witness for c7_failure_mutates_entry_no_compensation at the concrete
failed sale. -/
theorem c7_failure_mutates_entry_no_compensation_witness :
    (¬ sell_state_0.user.wallet_balance < 50) ∧ (¬ 0 < gateway_failure.numSent) ∧
    (sell_airtime sell_state_0 50 "0799999999" gateway_failure).1.user.wallet_balance =
      sell_state_0.user.wallet_balance ∧
    (sell_airtime sell_state_0 50 "0799999999" gateway_failure).1.transactions.length =
      sell_state_0.transactions.length + 1 := by
  have h1 : ¬ sell_state_0.user.wallet_balance < 50 := by
    norm_num [sell_state_0, scenario_d_a]
  have h2 : ¬ 0 < gateway_failure.numSent := by decide
  exact ⟨h1, h2,
    (c7_failure_mutates_entry_no_compensation sell_state_0 50 "0799999999"
      gateway_failure h1 h2).1,
    (c7_failure_mutates_entry_no_compensation sell_state_0 50 "0799999999"
      gateway_failure h1 h2).2.1⟩

/-- C8 counterexample: send_money does not lock in ascending account-id
order — a transfer from account 2 to account 1 locks row 2 first, an
order that is not ascending. -/
theorem c8_counterexample :
    send_money_lock_order 2 1 = [2, 1] ∧
    ¬ List.Sorted (· ≤ ·) (send_money_lock_order 2 1) := by
  constructor
  · rfl
  · decide

/-- C8 amended: send_money acquires its two row locks in transfer
direction — the sender's row first, then the recipient's — not in
ascending account-id order, so the locking discipline does not protect
two concurrent opposite-direction transfers from circular wait.  Run
sequentially, the two Scenario D transfers (A→B 50 then B→A 50) both
commit and restore both balances to 100. -/
theorem c8_lock_order_is_direction :
    (∀ sender_id recipient_id : Nat,
      send_money_lock_order sender_id recipient_id = [sender_id, recipient_id]) ∧
    ((send_money
        { sender := (send_money transfer_state_ab 50 none).1.recipient.getD default
          recipient := some (send_money transfer_state_ab 50 none).1.sender
          transactions := (send_money transfer_state_ab 50 none).1.transactions }
        50 none).1.sender.wallet_balance = 100 ∧
     ((send_money
        { sender := (send_money transfer_state_ab 50 none).1.recipient.getD default
          recipient := some (send_money transfer_state_ab 50 none).1.sender
          transactions := (send_money transfer_state_ab 50 none).1.transactions }
        50 none).1.recipient.getD default).wallet_balance = 100) := by
  refine ⟨fun _ _ => rfl, ?_, ?_⟩ <;>
    · simp only [send_money, transfer_state_ab, scenario_d_a, scenario_d_b,
        completed_volume, calculate_loan_limit]
      norm_num

/-- C1: for every ledger entry constructed with completed status by a
balance-mutating operation — deposit, withdrawal, transfer (both entries),
loan disbursement, loan repayment, investment deposit, investment
cash-out, and the airtime sale's commission entry — the recorded
balance_after equals balance_before plus the signed amount (positive for
credit kinds, negative for debit kinds), and balance_after equals the
wallet balance the operation persists for that account.  The airtime
sale's principal-deduction entry is outside this scope: it is constructed
with pending status and only promoted to completed once the gateway
succeeds. -/
theorem c1_completed_entries_balanced :
    (∀ (s : WalletState) (a : ℚ),
      (deposit_funds s a).2.status = TransactionStatus.completed ∧
      entry_balanced (deposit_funds s a).2 ∧
      (deposit_funds s a).2.balance_after = (deposit_funds s a).1.user.wallet_balance) ∧
    (∀ (s : WalletState) (a : ℚ), ¬ s.user.wallet_balance < a →
      (entry_at (withdraw_money s a).1.transactions s.transactions.length).status =
        TransactionStatus.completed ∧
      entry_balanced (entry_at (withdraw_money s a).1.transactions s.transactions.length) ∧
      (entry_at (withdraw_money s a).1.transactions s.transactions.length).balance_after =
        (withdraw_money s a).1.user.wallet_balance) ∧
    (∀ (s : TransferState) (a : ℚ) (d : Option String) (r : User),
      s.recipient = some r → r.id ≠ s.sender.id → ¬ s.sender.wallet_balance < a →
      (entry_at (send_money s a d).1.transactions s.transactions.length).status =
        TransactionStatus.completed ∧
      entry_balanced (entry_at (send_money s a d).1.transactions s.transactions.length) ∧
      (entry_at (send_money s a d).1.transactions s.transactions.length).balance_after =
        (send_money s a d).1.sender.wallet_balance ∧
      (entry_at (send_money s a d).1.transactions (s.transactions.length + 1)).status =
        TransactionStatus.completed ∧
      entry_balanced (entry_at (send_money s a d).1.transactions
        (s.transactions.length + 1)) ∧
      (entry_at (send_money s a d).1.transactions (s.transactions.length + 1)).balance_after =
        ((send_money s a d).1.recipient.getD default).wallet_balance) ∧
    (∀ (s : LoanApproveState) (now : ℚ), s.loan.status = LoanStatus.pending →
      0 < s.loan.principal_amount - s.loan.principal_amount * APPLICATION_FEE_PERCENT -
        s.loan.interest_amount →
      (entry_at (approve_loan s now).1.transactions s.transactions.length).status =
        TransactionStatus.completed ∧
      entry_balanced (entry_at (approve_loan s now).1.transactions s.transactions.length) ∧
      (entry_at (approve_loan s now).1.transactions s.transactions.length).balance_after =
        (approve_loan s now).1.borrower.wallet_balance) ∧
    (∀ (s : LoanRepayState) (a now : ℚ),
      (s.loan.status = LoanStatus.active ∨ s.loan.status = LoanStatus.approved ∨
        s.loan.status = LoanStatus.defaulted) →
      ¬ s.user.wallet_balance < min a (s.loan.total_amount - s.loan.amount_paid) →
      (entry_at (repay_loan s a now).1.transactions s.transactions.length).status =
        TransactionStatus.completed ∧
      entry_balanced (entry_at (repay_loan s a now).1.transactions s.transactions.length) ∧
      (entry_at (repay_loan s a now).1.transactions s.transactions.length).balance_after =
        (repay_loan s a now).1.user.wallet_balance) ∧
    (∀ (s : InvestState) (a : ℚ) (p : InvestPeriod) (new_id : Nat) (now : ℚ),
      ¬ s.user.wallet_balance < a →
      (entry_at (create_investment s a p new_id now).1.transactions
        s.transactions.length).status = TransactionStatus.completed ∧
      entry_balanced (entry_at (create_investment s a p new_id now).1.transactions
        s.transactions.length) ∧
      (entry_at (create_investment s a p new_id now).1.transactions
          s.transactions.length).balance_after =
        (create_investment s a p new_id now).1.user.wallet_balance) ∧
    (∀ (s : InvestState) (invest_id : Nat) (now : ℚ) (inv0 : UserInvest),
      s.invests.find?
          (fun i => i.id == invest_id && i.user_id == s.user.id && i.is_active) = some inv0 →
      (entry_at (cashout_investment s invest_id now).1.transactions
        s.transactions.length).status = TransactionStatus.completed ∧
      entry_balanced (entry_at (cashout_investment s invest_id now).1.transactions
        s.transactions.length) ∧
      (entry_at (cashout_investment s invest_id now).1.transactions
          s.transactions.length).balance_after =
        (cashout_investment s invest_id now).1.user.wallet_balance) ∧
    (∀ (s : SellState) (a : ℚ) (phone : String) (resp : GatewayResp),
      ¬ s.user.wallet_balance < a → 0 < resp.numSent →
      (entry_at (sell_airtime s a phone resp).1.transactions
        (s.transactions.length + 1)).status = TransactionStatus.completed ∧
      entry_balanced (entry_at (sell_airtime s a phone resp).1.transactions
        (s.transactions.length + 1)) ∧
      (entry_at (sell_airtime s a phone resp).1.transactions
          (s.transactions.length + 1)).balance_after =
        (sell_airtime s a phone resp).1.user.wallet_balance) := by
  refine ⟨?_, ?_, ?_, ?_, ?_, ?_, ?_, ?_⟩
  · intro s a
    refine ⟨rfl, ?_, rfl⟩
    simp [entry_balanced, signed_amount, TransactionType.is_credit, deposit_funds]
  · intro s a h
    unfold withdraw_money
    rw [if_neg h]
    dsimp only
    rw [entry_at_append_zero, entry_at_singleton]
    refine ⟨rfl, ?_, rfl⟩
    simp only [entry_balanced, signed_amount, TransactionType.is_credit]
    norm_num
    ring
  · intro s a d r hrec hid hge
    unfold send_money
    rw [if_neg hge, hrec]
    dsimp only
    rw [if_neg hid, if_neg hge]
    rw [entry_at_append_zero, entry_at_append_one, entry_at_pair_zero, entry_at_pair_one]
    refine ⟨rfl, ?_, rfl, rfl, ?_, rfl⟩
    · simp only [entry_balanced, signed_amount, TransactionType.is_credit]
      norm_num
      ring
    · simp only [entry_balanced, signed_amount, TransactionType.is_credit]
      norm_num
  · intro s now hp hd
    unfold approve_loan
    rw [if_neg (not_not_intro hp)]
    dsimp only
    rw [if_neg (not_le_of_lt hd)]
    rw [entry_at_append_zero, entry_at_singleton]
    refine ⟨rfl, ?_, rfl⟩
    simp only [entry_balanced, signed_amount, TransactionType.is_credit]
    norm_num
  · intro s a now hst hlt
    unfold repay_loan
    rw [if_neg (not_not_intro hst)]
    dsimp only
    rw [if_neg hlt]
    rw [entry_at_append_zero, entry_at_singleton]
    refine ⟨rfl, ?_, rfl⟩
    simp only [entry_balanced, signed_amount, TransactionType.is_credit]
    norm_num
    ring
  · intro s a p new_id now h
    unfold create_investment
    rw [if_neg h]
    dsimp only
    rw [entry_at_append_zero, entry_at_singleton]
    refine ⟨rfl, ?_, rfl⟩
    simp only [entry_balanced, signed_amount, TransactionType.is_credit]
    norm_num
    ring
  · intro s invest_id now inv0 hfind
    unfold cashout_investment
    rw [hfind]
    dsimp only
    rw [entry_at_append_zero, entry_at_singleton]
    refine ⟨rfl, ?_, rfl⟩
    simp only [entry_balanced, signed_amount, TransactionType.is_credit]
    norm_num
  · intro s a phone resp hbal hsent
    unfold sell_airtime
    rw [if_neg hbal]
    dsimp only
    rw [if_pos hsent]
    rw [entry_at_append_one, entry_at_pair_one]
    refine ⟨rfl, ?_, rfl⟩
    simp only [entry_balanced, signed_amount, TransactionType.is_credit]
    norm_num

/-- Witness for c1_completed_entries_balanced: a deposit of 100 and a
successful airtime sale of 50, both from balance 100. -/
theorem c1_completed_entries_balanced_witness :
    ((deposit_funds wallet_state_0 100).2.status = TransactionStatus.completed ∧
      entry_balanced (deposit_funds wallet_state_0 100).2 ∧
      (deposit_funds wallet_state_0 100).2.balance_after =
        (deposit_funds wallet_state_0 100).1.user.wallet_balance) ∧
    (¬ sell_state_0.user.wallet_balance < 50) ∧
    0 < gateway_success.numSent ∧
    ((entry_at (sell_airtime sell_state_0 50 "0799999999" gateway_success).1.transactions
        (sell_state_0.transactions.length + 1)).status = TransactionStatus.completed ∧
      entry_balanced (entry_at
        (sell_airtime sell_state_0 50 "0799999999" gateway_success).1.transactions
        (sell_state_0.transactions.length + 1)) ∧
      (entry_at (sell_airtime sell_state_0 50 "0799999999" gateway_success).1.transactions
          (sell_state_0.transactions.length + 1)).balance_after =
        (sell_airtime sell_state_0 50 "0799999999" gateway_success).1.user.wallet_balance) := by
  have h1 : ¬ sell_state_0.user.wallet_balance < 50 := by
    norm_num [sell_state_0, scenario_d_a]
  have h2 : 0 < gateway_success.numSent := by decide
  exact ⟨c1_completed_entries_balanced.1 wallet_state_0 100, h1, h2,
    c1_completed_entries_balanced.2.2.2.2.2.2.2 sell_state_0 50 "0799999999"
      gateway_success h1 h2⟩

end Merite
